import Mathlib

/-!
Verification of the TOQ-Nets model wrappers `STGCN_BIN_SA` and `STGCN_RL`
(files `toqnets/models/STGCN_BIN_SA.py` and `toqnets/models/STGCN_RL.py`).

The two model classes are thin wrappers: they validate input tensor shapes,
optionally inject noise and reorder agents, call external submodules
(the STGCN backbone, the predefined input transform, `move_player_first`,
and the tensor library itself), pool, and decode to logits.

Shallow embedding conventions:
* a tensor is a shape (list of dimension sizes) together with a total data
  function from multi-indices to rationals (floating point values are
  modelled as `ℚ`; none of the verified properties depends on rounding);
* the external submodules that the repository does not define
  (`STGCN`, `InputTransformPredefined.__call__`, `move_player_first`,
  `torch.normal`) are opaque function parameters carried by the model /
  torch environment structures; theorems that need their shape behaviour
  assume exactly the shape contracts stated in the spec;
* Python failure modes are explicit: `KeyError` for a missing dictionary
  field, `AssertionError` for a failed `assert`, `ValueError` for
  `raise ValueError()` (and for unpacking a tensor size of the wrong rank),
  `NameError` for the unbound local `binary_input`, `AttributeError` for
  the missing `input_transform` attribute, `RuntimeError` for tensor-library
  errors (empty `max`, shape-mismatched `cat` / matmul);
* `forward` returning Python `None` (the parameter-estimation path) is the
  distinguished result `FwdResult.retNoneAfterEstimate s`, which records the
  states tensor on which `input_transform.estimate_parameters` was invoked.
-/

/-- A (dense, real-valued) tensor: a shape together with a total data
function on multi-indices.  Only the values at in-range indices of the
correct length are meaningful. -/
structure Tensor where
  shape : List Nat
  data : List Nat → ℚ

/-- `torch.zeros(shape)` (also used for `torch.zeros_like` via the shape). -/
def zerosT (s : List Nat) : Tensor := ⟨s, fun _ => 0⟩

/-- All valid multi-indices of a shape, in row-major order. -/
def allIdx : List Nat → List (List Nat)
  | [] => [[]]
  | n :: rest => (List.range n).flatMap (fun i => (allIdx rest).map (fun idx => i :: idx))

/-- `t.max()`: the maximum entry over all valid indices; `none` when the
tensor is empty (where torch raises a `RuntimeError`). -/
def tmax (t : Tensor) : Option ℚ :=
  match allIdx t.shape with
  | [] => none
  | i :: is => some ((is.map t.data).foldl max (t.data i))

/-- `torch.cat([a, b], dim=d)`: `none` when the shapes disagree outside
dimension `d` (torch raises a `RuntimeError` there). -/
def catAlong (d : Nat) (a b : Tensor) : Option Tensor :=
  if a.shape.set d 0 = b.shape.set d 0 ∧ d < a.shape.length then
    some ⟨a.shape.set d (a.shape.getD d 0 + b.shape.getD d 0),
      fun idx =>
        if idx.getD d 0 < a.shape.getD d 0 then a.data idx
        else b.data (idx.set d (idx.getD d 0 - a.shape.getD d 0))⟩
  else none

/-- `t.unsqueeze(d)`: insert a dimension of size 1 at position `d`. -/
def unsqueezeT (t : Tensor) (d : Nat) : Tensor :=
  ⟨t.shape.take d ++ 1 :: t.shape.drop d,
   fun idx => t.data (idx.take d ++ idx.drop (d + 1))⟩

/-- `t.repeat(reps)` for `reps` of the same length as the shape (the only
use in the sources): each dimension is tiled `reps[i]` times. -/
def repeatT (t : Tensor) (reps : List Nat) : Option Tensor :=
  if reps.length = t.shape.length then
    some ⟨List.zipWith (·*·) reps t.shape,
      fun idx => t.data (List.zipWith (·%·) idx t.shape)⟩
  else none

/-- `x.mean(dim=(2,3))` for a tensor of rank at least 4; `none` otherwise
(torch raises a dimension-out-of-range error). -/
def meanDims23 (x : Tensor) : Option Tensor :=
  match x.shape with
  | s0 :: s1 :: s2 :: s3 :: rest =>
    some ⟨s0 :: s1 :: rest,
      fun idx =>
        (((List.range s2).flatMap (fun i =>
            (List.range s3).map (fun j =>
              x.data (idx.take 2 ++ i :: j :: idx.drop 2)))).foldl (·+·) 0)
          / ((s2 * s3 : Nat) : ℚ)⟩
  | _ => none

/-- An `nn.Linear(inF, outF)` module: weight and bias values are the
externally initialised parameters. -/
structure LinearT where
  inF : Nat
  outF : Nat
  weight : Nat → Nat → ℚ
  bias : Nat → ℚ

/-- Applying a linear layer to the last dimension of a tensor
(`apply_last_dim(self.decoder, x)` in `STGCN_BIN_SA.forward`, and the
direct `self.decoder(x)` call in `STGCN_RL.forward` — `nn.Linear` acts on
the last dimension).  `none` when the last dimension does not match the
layer's input features (torch raises a matmul shape error). -/
def applyLastDim (f : LinearT) (x : Tensor) : Option Tensor :=
  if x.shape.getLastD 0 = f.inF ∧ x.shape ≠ [] then
    some ⟨x.shape.dropLast ++ [f.outF],
      fun idx =>
        f.bias (idx.getLastD 0) +
          ((List.range f.inF).map (fun j =>
            f.weight (idx.getLastD 0) j * x.data (idx.dropLast ++ [j]))).foldl (·+·) 0⟩
  else none

/-- The Python failure modes that the two forward passes can hit. -/
inductive PyError where
  | keyError
  | assertError
  | valueError
  | nameError
  | attributeError
  | runtimeError
  deriving DecidableEq

/-- The output dictionary `{'output': ..., 'target': ..., 'loss': ...}`. -/
structure OutputDict where
  output : Tensor
  target : Tensor
  loss : Tensor

/-- Result of a forward call: a returned output dictionary, the Python
`None` returned on the parameter-estimation path (recording the states
tensor passed to `input_transform.estimate_parameters`), or an exception. -/
inductive FwdResult where
  | ok (d : OutputDict)
  | retNoneAfterEstimate (states : Tensor)
  | error (e : PyError)

/-- The input data dictionary.  Every field the two forward passes read is
optional, mirroring Python dictionary access: reading an absent field
raises `KeyError` (`data['k']`) while `data['k'] if 'k' in data else None`
yields `none`. -/
structure DataDict where
  trajectories : Option Tensor := none
  types : Option Tensor := none
  playerid : Option Tensor := none
  actions : Option Tensor := none
  lengths : Option Tensor := none
  nullary_states : Option Tensor := none
  unary_states : Option Tensor := none

/-- The hyper-parameter dictionary: `hp['beta']` is read unconditionally by
`STGCN_BIN_SA.forward`; `'estimate_parameters' in hp and
hp['estimate_parameters']` tests presence and truthiness. -/
structure HyperParams where
  beta : Option ℚ := none
  estimate_parameters : Option Bool := none

/-- The tensor-library operations external to the repository that
`STGCN_BIN_SA.forward` calls on data: `torch.normal(mean, std)` (a sample)
and `toqnets.nn.utils.move_player_first(trajectories, playerid)`. -/
structure TorchEnv where
  normal : Tensor → Tensor → Tensor
  move_player_first : Tensor → Tensor → Tensor

/-- A Python configuration value, covering the value kinds that appear in
the two models' `default_config` dictionaries. -/
inductive PyVal where
  | s (v : String)
  | n (v : Nat)
  | b (v : Bool)
  | pr (a b : Nat)
  | lst (v : List Nat)
  | none_
  deriving DecidableEq

/-- A configuration dictionary (Python `dict`) as an association list. -/
def ConfigDict := List (String × PyVal)

/-- `d[k]` as an option. -/
def lookupK : ConfigDict → String → Option PyVal
  | [], _ => none
  | (k, v) :: rest, key => if key = k then some v else lookupK rest key

/-- The keys of a configuration dictionary. -/
def keysOf (d : ConfigDict) : List String := d.map Prod.fst

/-- `d[k] = v`: replace in place when present, append when absent
(Python dictionary assignment keeps existing key positions). -/
def setKey (d : ConfigDict) (key : String) (v : PyVal) : ConfigDict :=
  match d with
  | [] => [(key, v)]
  | (k, w) :: rest => if key = k then (k, v) :: rest else (k, w) :: setKey rest key v

/-- Modelled from the spec: `toqnets.config_update.update_config` (the file
`toqnets/config_update.py` is not part of this excerpt).  The spec
describes the configuration as a key-value mapping "overridable via a
generic update mechanism": each key mentioned in the update overwrites the
corresponding configuration entry. -/
def update_config (config : ConfigDict) (cu : ConfigDict) : ConfigDict :=
  cu.foldl (fun d kv => setKey d kv.1 kv.2) config

/-- Modelled from the spec: a `ConfigUpdate` (from the absent
`toqnets/config_update.py`) is itself a key-value mapping; a Python
dictionary has no duplicate keys. -/
def ConfigUpdate.wf (cu : ConfigDict) : Prop := (keysOf cu).Nodup

/-- `complete_config(config_update, default_config=None)`, shared by both
model classes (parameterised by the class's `default_config`): deep-copy
the defaults, apply the update, then fill in any default key still
missing. -/
def completeConfig (dflt : ConfigDict) (cu : ConfigDict) : ConfigDict :=
  let config := update_config dflt cu
  (keysOf dflt).foldl
    (fun c k => if (lookupK c k).isSome then c else setKey c k ((lookupK dflt k).getD .none_))
    config

namespace STGCN_BIN_SA

/-- The value of the `'input_feature'` configuration key as used by
`STGCN_BIN_SA.__init__` and `forward`: the string `'physical'`, Python
`None`, or anything else (which triggers `raise ValueError()`). -/
inductive InputFeature where
  | physical
  | null
  | other (v : String)
  deriving DecidableEq

/-- The typed view of the configuration dictionary: exactly the keys of
`STGCN_BIN_SA.default_config`, with the Python value kinds the class reads
(`__init__` extracts these keys by name). -/
structure Config where
  name : String
  n_agents : Nat
  state_dim : Nat
  image_dim : Option Nat
  type_dim : Nat
  n_actions : Nat
  h_dim : Nat
  n_features : Nat
  kernel_size : Nat × Nat
  edge_importance_weighting : Bool
  noise : Option ℚ
  input_feature : InputFeature
  cmp_dim : Nat
  max_gcn : Bool

/-- The class attribute `STGCN_BIN_SA.default_config` as a dictionary
(used by `complete_config`). -/
def default_config : ConfigDict :=
  [("name", .s "STGCN_BIN_SA"),
   ("n_agents", .n 13),
   ("state_dim", .n 3),
   ("image_dim", .none_),
   ("type_dim", .n 4),
   ("n_actions", .n 9),
   ("h_dim", .n 128),
   ("n_features", .n 256),
   ("kernel_size", .pr 7 7),
   ("edge_importance_weighting", .b true),
   ("noise", .none_),
   ("input_feature", .s "physical"),
   ("cmp_dim", .n 5),
   ("max_gcn", .b false)]

/-- The typed counterpart of `default_config`. -/
def defaultConfig : Config :=
  { name := "STGCN_BIN_SA", n_agents := 13, state_dim := 3, image_dim := none,
    type_dim := 4, n_actions := 9, h_dim := 128, n_features := 256,
    kernel_size := (7, 7), edge_importance_weighting := true, noise := none,
    input_feature := .physical, cmp_dim := 5, max_gcn := false }

/-- `STGCN_BIN_SA.complete_config(config_update)` with the
`default_config` argument left at its `None` default: start from a deep
copy of the class defaults, apply the update, fill any still-missing
default key. -/
def complete_config (cu : ConfigDict) : ConfigDict := completeConfig default_config cu

/-- Modelled from the spec: `InputTransformPredefined`
(`toqnets/nn/input_transform/input_transform.py` is not part of this
excerpt).  Per the spec it "maps raw per-agent trajectory coordinates plus
type labels into derived pairwise (binary) relational features"; `apply`
is the index-2 (binary) component of its outputs, the one `forward`
consumes (`nlm_inputs[2]`), taking the states, the `add_unary_tensor` and
`beta`; `out_dims` are its declared output dimensions (`__init__` reads
`out_dims[2]`). -/
structure InputTransformT where
  out_dims : List Nat
  apply : Tensor → Tensor → ℚ → Tensor

/-- A constructed `STGCN_BIN_SA` module.  The externally defined
submodules are opaque: `input_transform` exists exactly when `__init__`
took the `'physical'` branch; `stgcn` is the STGCN backbone applied to the
concatenated inputs and the binary features; `decoder` is
`nn.Linear(n_features, n_actions)`. -/
structure Model where
  config : Config
  input_transform : Option InputTransformT
  stgcn : Tensor → Tensor → Tensor
  decoder : LinearT

/-- `STGCN_BIN_SA.__init__(config)`.  The external submodule instances
(the input transform, the STGCN backbone built from the configuration,
and the randomly initialised decoder parameters) are passed in as opaque
arguments.  `input_feature == 'physical'` installs the input transform;
`input_feature is None` installs none; any other value raises
`ValueError()`. -/
def init (cfg : Config) (it : InputTransformT) (stgcnM : Tensor → Tensor → Tensor)
    (w : Nat → Nat → ℚ) (bias : Nat → ℚ) : Except PyError Model :=
  match cfg.input_feature with
  | .physical => .ok ⟨cfg, some it, stgcnM, ⟨cfg.n_features, cfg.n_actions, w, bias⟩⟩
  | .null => .ok ⟨cfg, none, stgcnM, ⟨cfg.n_features, cfg.n_actions, w, bias⟩⟩
  | .other _ => .error .valueError

/-- The noise standard-deviation tensor: `torch.zeros_like(trajectories)`
with `noise_std[:, :, :, :2] = noise`. -/
def noiseStdT (sigma : ℚ) (traj : Tensor) : Tensor :=
  ⟨traj.shape, fun idx => if idx.getD 3 0 < 2 then sigma else 0⟩

/-- The noise-injection step of `forward`: when `config['noise']` is not
`None`, replace the trajectories by `torch.normal(trajectories,
noise_std)`; otherwise leave them unchanged. -/
def trajAfterNoise (tenv : TorchEnv) (noise : Option ℚ) (traj : Tensor) : Tensor :=
  match noise with
  | none => traj
  | some sigma => tenv.normal traj (noiseStdT sigma traj)

/-- The per-agent type class assigned by the reordering branch:
`tp = (0 if k == 0 else 1) if k <= 1 else (2 if k <= n_players else 3)`. -/
def typeClassOf (n_players k : Nat) : Nat :=
  if k ≤ 1 then (if k = 0 then 0 else 1) else (if k ≤ n_players then 2 else 3)

/-- One loop iteration `types[:, k, tp] = 1`. -/
def setOneCol (t : Tensor) (k tp : Nat) : Tensor :=
  ⟨t.shape, fun idx => if idx.getD 1 0 = k ∧ idx.getD 2 0 = tp then 1 else t.data idx⟩

/-- The constructed one-hot type tensor of the reordering branch:
`torch.zeros(states.size(0), states.size(2), 4)` followed by
`types[:, k, tp] = 1` for `k in range(n_agents)` with
`n_players = n_agents // 2`. -/
def buildTypes (d0 d2 n_agents : Nat) : Tensor :=
  let n_players := n_agents / 2
  (List.range n_agents).foldl (fun t k => setOneCol t k (typeClassOf n_players k)) (zerosT [d0, d2, 4])

/-- The agent-reordering branch of `forward`: when `playerid` is present
and `playerid.max() > -0.5`, the states become
`move_player_first(trajectories, playerid)` and the caller's types are
replaced by the constructed one-hot tensor; otherwise the trajectories and
the caller's types pass through.  `playerid.max()` on an empty tensor is a
torch `RuntimeError`. -/
def playerStatesTypes (tenv : TorchEnv) (n_agents : Nat) (trajectories types : Tensor)
    (playerid : Option Tensor) : Except PyError (Tensor × Tensor) :=
  match playerid with
  | some pid =>
    match tmax pid with
    | none => .error .runtimeError
    | some mx =>
      if mx > -(1/2 : ℚ) then
        let states := tenv.move_player_first trajectories pid
        .ok (states, buildTypes (states.shape.getD 0 0) (states.shape.getD 2 0) n_agents)
      else .ok (trajectories, types)
  | none => .ok (trajectories, types)

/-- The `input_feature` dispatch of `forward`: `'physical'` computes the
binary features via the input transform; `None` leaves the local
`binary_input` unbound (`.ok none`); anything else raises `ValueError()`. -/
def binaryInput (m : Model) (states types : Tensor) (beta : ℚ) : Except PyError (Option Tensor) :=
  match m.config.input_feature with
  | .physical =>
    match m.input_transform with
    | some it => .ok (some (it.apply states types beta))
    | none => .error .attributeError
  | .null => .ok none
  | .other _ => .error .valueError

/-- `STGCN_BIN_SA.forward(data, hp)`, step by step in source order:
read `types` (cast to float — identity over `ℚ`), `trajectories`, the
optional `playerid`, `actions`; unpack the trajectory shape (a non-rank-4
tensor makes the 4-way unpacking raise `ValueError`); the three shape
asserts; read `hp['beta']`; noise injection; agent reordering; the
parameter-estimation early return (`None`); the `input_feature` dispatch;
concatenate states with the repeated types; run the backbone; mean-pool
over time and agents; assert the pooled shape; decode. -/
def forward (tenv : TorchEnv) (m : Model) (data : DataDict) (hp : HyperParams) : FwdResult :=
  match data.types with
  | none => .error .keyError
  | some types0 =>
  match data.trajectories with
  | none => .error .keyError
  | some trajectories =>
  match data.actions with
  | none => .error .keyError
  | some actions =>
  match trajectories.shape with
  | [batch, length, n_agents, state_dim] =>
    if n_agents = m.config.n_agents ∧ state_dim = m.config.state_dim ∧ actions.shape = [batch] then
      match hp.beta with
      | none => .error .keyError
      | some beta =>
        match playerStatesTypes tenv m.config.n_agents
            (trajAfterNoise tenv m.config.noise trajectories) types0 data.playerid with
        | .error e => .error e
        | .ok (states, types) =>
          if hp.estimate_parameters.getD false then
            match m.input_transform with
            | some _ => .retNoneAfterEstimate states
            | none => .error .attributeError
          else
            match binaryInput m states types beta with
            | .error e => .error e
            | .ok bin =>
              match repeatT (unsqueezeT types 1) [1, length, 1, 1] with
              | none => .error .runtimeError
              | some typesRep =>
              match catAlong 3 states typesRep with
              | none => .error .runtimeError
              | some inputs =>
                match bin with
                | none => .error .nameError
                | some b =>
                  match meanDims23 (m.stgcn inputs b) with
                  | none => .error .runtimeError
                  | some xm =>
                    if xm.shape = [batch, (m.stgcn inputs b).shape.getD 1 0] then
                      match applyLastDim m.decoder xm with
                      | none => .error .runtimeError
                      | some out => .ok ⟨out, actions, zerosT [1]⟩
                    else .error .assertError
    else .error .assertError
  | _ => .error .valueError

/-- The effect of `set_grad` on the module's parameters (the iteration
over `self.parameters()` is external; only which parameters end up with
`requires_grad` is recorded). -/
inductive GradEffect where
  | allOn
  | allOff
  | firstLayerOnly
  deriving DecidableEq

/-- `STGCN_BIN_SA.set_grad(option)`: `'all'`, `'none'` and
`'gfootball_finetune'` set the corresponding flags; anything else raises
`ValueError()`. -/
def set_grad (opt : String) : Except PyError GradEffect :=
  if opt = "all" then .ok .allOn
  else if opt = "none" then .ok .allOff
  else if opt = "gfootball_finetune" then .ok .firstLayerOnly
  else .error .valueError

end STGCN_BIN_SA

namespace STGCN_RL

/-- The typed view of the configuration dictionary: exactly the keys of
`STGCN_RL.default_config` (`state_dim` is the two-element list
`[state_dim[0], state_dim[1]]`). -/
structure Config where
  name : String
  n_agents : Nat
  state_dim0 : Nat
  state_dim1 : Nat
  object_name_dim : Nat
  n_actions : Nat
  h_dim : Nat
  n_features : Nat
  kernel_size : Nat × Nat
  edge_importance_weighting : Bool

/-- The class attribute `STGCN_RL.default_config` as a dictionary
(used by `complete_config`). -/
def default_config : ConfigDict :=
  [("name", .s "STGCN_RL"),
   ("n_agents", .n 45),
   ("state_dim", .lst [14, 14]),
   ("object_name_dim", .n 194),
   ("n_actions", .n 2),
   ("h_dim", .n 128),
   ("n_features", .n 256),
   ("kernel_size", .pr 7 7),
   ("edge_importance_weighting", .b false)]

/-- The typed counterpart of `default_config`. -/
def defaultConfig : Config :=
  { name := "STGCN_RL", n_agents := 45, state_dim0 := 14, state_dim1 := 14,
    object_name_dim := 194, n_actions := 2, h_dim := 128, n_features := 256,
    kernel_size := (7, 7), edge_importance_weighting := false }

/-- `STGCN_RL.complete_config(config_update)` with the `default_config`
argument left at its `None` default. -/
def complete_config (cu : ConfigDict) : ConfigDict := completeConfig default_config cu

/-- A constructed `STGCN_RL` module: the external STGCN backbone (here
called with a single tensor argument) and the decoder
`nn.Linear(n_features, n_actions)`. -/
structure Model where
  config : Config
  stgcn : Tensor → Tensor
  decoder : LinearT

/-- `STGCN_RL.__init__(config)`: no validation, just submodule
construction (the backbone and the decoder parameters are opaque external
arguments). -/
def init (cfg : Config) (stgcnM : Tensor → Tensor) (w : Nat → Nat → ℚ) (bias : Nat → ℚ) : Model :=
  ⟨cfg, stgcnM, ⟨cfg.n_features, cfg.n_actions, w, bias⟩⟩

/-- `STGCN_RL.forward(data, hp)`, in source order: read `nullary_states`,
`unary_states`, `actions` and `lengths` (all unconditional dictionary
accesses — a missing field is a `KeyError`; `lengths` is never used
afterwards); unpack the unary shape; the three asserts; expand the nullary
and unary states with zero padding (`nullary_states.view(batch, length, 1,
state_dim[0])` on a tensor just asserted to have shape `(batch, length,
state_dim[0])` is exactly an unsqueeze at dimension 2) and concatenate;
run the backbone; mean-pool over time and agents; assert the pooled shape
against `(batch, n_features)` with `n_features` from the configuration;
decode. -/
def forward (m : Model) (data : DataDict) (_hp : HyperParams) : FwdResult :=
  match data.nullary_states with
  | none => .error .keyError
  | some nullary_states =>
  match data.unary_states with
  | none => .error .keyError
  | some unary_states =>
  match data.actions with
  | none => .error .keyError
  | some actions =>
  match data.lengths with
  | none => .error .keyError
  | some _ =>
  match unary_states.shape with
  | [batch, length, n_agents, lastd] =>
    if n_agents = m.config.n_agents ∧
        nullary_states.shape = [batch, length, m.config.state_dim0] ∧
        lastd = m.config.state_dim1 + m.config.object_name_dim then
      match catAlong 3 (unsqueezeT nullary_states 2)
          (zerosT [batch, length, 1, m.config.state_dim1 + m.config.object_name_dim]) with
      | none => .error .runtimeError
      | some nullary_expand =>
      match catAlong 3 (zerosT [batch, length, n_agents, m.config.state_dim0]) unary_states with
      | none => .error .runtimeError
      | some unary_expand =>
      match catAlong 2 nullary_expand unary_expand with
      | none => .error .runtimeError
      | some inputs =>
        match meanDims23 (m.stgcn inputs) with
        | none => .error .runtimeError
        | some xm =>
          if xm.shape = [batch, m.config.n_features] then
            match applyLastDim m.decoder xm with
            | none => .error .runtimeError
            | some out => .ok ⟨out, actions, zerosT [1]⟩
          else .error .assertError
    else .error .assertError
  | _ => .error .valueError

end STGCN_RL


/-! Concrete instantiations of the opaque externals and inputs, used to
exercise the theorems on closed values: a shape-preserving torch
environment, a backbone returning features of shape
`[batch, n_features, 1, 1]`, zero-initialised decoder parameters, and
small valid input dictionaries for each model. -/

def stubTenv : TorchEnv := ⟨fun mean _ => mean, fun t _ => t⟩

def stubStgcn2 (nf : Nat) : Tensor → Tensor → Tensor :=
  fun inp _ => ⟨[inp.shape.getD 0 0, nf, 1, 1], fun _ => 0⟩

def stubStgcn1 (nf : Nat) : Tensor → Tensor :=
  fun inp => ⟨[inp.shape.getD 0 0, nf, 1, 1], fun _ => 0⟩

def stubIT : STGCN_BIN_SA.InputTransformT := ⟨[1, 1, 1], fun _ _ _ => zerosT [1]⟩

def zeroW : Nat → Nat → ℚ := fun _ _ => 0

def zeroB : Nat → ℚ := fun _ => 0

def mBIN : STGCN_BIN_SA.Model :=
  ⟨STGCN_BIN_SA.defaultConfig, some stubIT, stubStgcn2 256, ⟨256, 9, zeroW, zeroB⟩⟩

def mRL : STGCN_RL.Model := STGCN_RL.init STGCN_RL.defaultConfig (stubStgcn1 256) zeroW zeroB

def cfgOther : STGCN_BIN_SA.Config :=
  { STGCN_BIN_SA.defaultConfig with input_feature := .other "bogus" }

def mOther : STGCN_BIN_SA.Model := { mBIN with config := cfgOther }

def mNoise : STGCN_BIN_SA.Model :=
  { mBIN with config := { STGCN_BIN_SA.defaultConfig with noise := some 1 } }

def trBIN : Tensor := ⟨[1, 1, 13, 3], fun _ => 0⟩

def trBad : Tensor := ⟨[1, 1, 5, 3], fun _ => 0⟩

def tyBIN : Tensor := ⟨[1, 13, 4], fun _ => 0⟩

def acT : Tensor := ⟨[1], fun _ => 0⟩

def dataBIN : DataDict :=
  { trajectories := some trBIN, types := some tyBIN, actions := some acT }

def dataBINbad : DataDict := { dataBIN with trajectories := some trBad }

def hpBIN : HyperParams := { beta := some 1 }

def hpEst : HyperParams := { beta := some 1, estimate_parameters := some true }

def nulRL : Tensor := ⟨[1, 1, 14], fun _ => 0⟩

def unaRL : Tensor := ⟨[1, 1, 45, 208], fun _ => 0⟩

def unaBad : Tensor := ⟨[1, 1, 45, 200], fun _ => 0⟩

def lenRL : Tensor := ⟨[1], fun _ => 0⟩

def dataRL : DataDict :=
  { nullary_states := some nulRL, unary_states := some unaRL,
    actions := some acT, lengths := some lenRL }

def dataRLbad : DataDict := { dataRL with unary_states := some unaBad }

def pidPos : Tensor := ⟨[2], fun idx => if idx = [0] then 3 else -1⟩

def pidNeg : Tensor := ⟨[1], fun _ => -1⟩

def cuW : ConfigDict := [("n_agents", PyVal.n 7)]


section OpLemmas

lemma catAlong_some (d : Nat) (a b : Tensor)
    (h1 : a.shape.set d 0 = b.shape.set d 0) (h2 : d < a.shape.length) :
    ∃ c, catAlong d a b = some c ∧ c.shape = a.shape.set d (a.shape.getD d 0 + b.shape.getD d 0) :=
  ⟨_, by rw [catAlong, if_pos ⟨h1, h2⟩], rfl⟩

lemma repeatT_some (t : Tensor) (reps : List Nat) (h : reps.length = t.shape.length) :
    ∃ r, repeatT t reps = some r ∧ r.shape = List.zipWith (·*·) reps t.shape :=
  ⟨_, by rw [repeatT, if_pos h], rfl⟩

lemma meanDims23_some (x : Tensor) (s0 s1 s2 s3 : Nat) (rest : List Nat)
    (h : x.shape = s0 :: s1 :: s2 :: s3 :: rest) :
    ∃ r, meanDims23 x = some r ∧ r.shape = s0 :: s1 :: rest := by
  unfold meanDims23
  rw [h]
  exact ⟨_, rfl, rfl⟩

lemma applyLastDim_some (f : LinearT) (x : Tensor)
    (h1 : x.shape.getLastD 0 = f.inF) (h2 : x.shape ≠ []) :
    ∃ r, applyLastDim f x = some r ∧ r.shape = x.shape.dropLast ++ [f.outF] :=
  ⟨_, by rw [applyLastDim, if_pos ⟨h1, h2⟩], rfl⟩

lemma unsqueezeT_shape (t : Tensor) (d : Nat) :
    (unsqueezeT t d).shape = t.shape.take d ++ 1 :: t.shape.drop d := rfl

end OpLemmas

namespace STGCN_BIN_SA

lemma setOneCol_shape (t : Tensor) (k tp : Nat) : (setOneCol t k tp).shape = t.shape := rfl

lemma foldl_setOneCol_shape (f : Nat → Nat) (l : List Nat) (t0 : Tensor) :
    (l.foldl (fun t k => setOneCol t k (f k)) t0).shape = t0.shape := by
  induction l generalizing t0 with
  | nil => rfl
  | cons x l ih => rw [List.foldl_cons, ih]; rfl

lemma buildTypes_shape (d0 d2 n : Nat) : (buildTypes d0 d2 n).shape = [d0, d2, 4] := by
  unfold buildTypes
  rw [foldl_setOneCol_shape]
  rfl

lemma foldl_setOneCol_data (f : Nat → Nat) (l : List Nat) (t0 : Tensor) (idx : List Nat) :
    (l.foldl (fun t k => setOneCol t k (f k)) t0).data idx =
      if ∃ k ∈ l, idx.getD 1 0 = k ∧ idx.getD 2 0 = f k then 1 else t0.data idx := by
  induction l generalizing t0 with
  | nil => simp
  | cons x l ih =>
    rw [List.foldl_cons, ih]
    by_cases hl : ∃ k ∈ l, idx.getD 1 0 = k ∧ idx.getD 2 0 = f k
    · rw [if_pos hl, if_pos]
      exact hl.imp (fun k hk => ⟨List.mem_cons_of_mem x hk.1, hk.2⟩)
    · rw [if_neg hl]
      by_cases hx : idx.getD 1 0 = x ∧ idx.getD 2 0 = f x
      · rw [if_pos ⟨x, List.mem_cons_self x l, hx⟩]
        show (if idx.getD 1 0 = x ∧ idx.getD 2 0 = f x then (1 : ℚ) else t0.data idx) = 1
        exact if_pos hx
      · rw [if_neg]
        · show (if idx.getD 1 0 = x ∧ idx.getD 2 0 = f x then (1 : ℚ) else t0.data idx) = t0.data idx
          exact if_neg hx
        · rintro ⟨k, hk, hkk⟩
          rcases List.mem_cons.mp hk with rfl | hk'
          · exact hx hkk
          · exact hl ⟨k, hk', hkk⟩

lemma buildTypes_data (d0 d2 n b k t : Nat) (hk : k < n) :
    (buildTypes d0 d2 n).data [b, k, t] =
      if t = typeClassOf (n / 2) k then 1 else 0 := by
  unfold buildTypes
  rw [foldl_setOneCol_data]
  by_cases ht : t = typeClassOf (n / 2) k
  · have hex : ∃ k' ∈ List.range n,
        List.getD [b, k, t] 1 0 = k' ∧ List.getD [b, k, t] 2 0 = typeClassOf (n / 2) k' :=
      ⟨k, List.mem_range.mpr hk, rfl, ht⟩
    rw [if_pos ht, if_pos hex]
  · have hnex : ¬∃ k' ∈ List.range n,
        List.getD [b, k, t] 1 0 = k' ∧ List.getD [b, k, t] 2 0 = typeClassOf (n / 2) k' := by
      rintro ⟨k', _, h1, h2⟩
      apply ht
      have hkk : k = k' := h1
      rw [hkk]
      exact h2
    rw [if_neg ht, if_neg hnex]
    rfl

lemma typeClassOf_eq (np k : Nat) :
    typeClassOf np k = if k = 0 then 0 else if k = 1 then 1 else if k ≤ np then 2 else 3 := by
  unfold typeClassOf
  rcases k with _ | _ | k
  · rfl
  · rfl
  · have h2 : ¬(k + 2 ≤ 1) := by omega
    have h0 : ¬(k + 2 = 0) := by omega
    have h1 : ¬(k + 2 = 1) := by omega
    rw [if_neg h2, if_neg h0, if_neg h1]

end STGCN_BIN_SA

namespace STGCN_BIN_SA

/-- Case analysis of the agent-reordering branch under a well-formed
`playerid` (absent, or present with a non-empty tensor). -/
lemma pst_cases (tenv : TorchEnv) (n : Nat) (traj ty : Tensor) (pid? : Option Tensor)
    (hpid : pid? = none ∨ ∃ pid mx, pid? = some pid ∧ tmax pid = some mx) :
    ∃ st tys, playerStatesTypes tenv n traj ty pid? = .ok (st, tys) ∧
      (st = traj ∧ tys = ty ∨
        ∃ pid, pid? = some pid ∧ st = tenv.move_player_first traj pid ∧
          tys = buildTypes (st.shape.getD 0 0) (st.shape.getD 2 0) n) := by
  rcases hpid with rfl | ⟨pid, mx, rfl, hmx⟩
  · exact ⟨traj, ty, rfl, Or.inl ⟨rfl, rfl⟩⟩
  · by_cases hgt : mx > -(1/2 : ℚ)
    · refine ⟨tenv.move_player_first traj pid, _, ?_, Or.inr ⟨pid, rfl, rfl, rfl⟩⟩
      simp only [playerStatesTypes, hmx, if_pos hgt]
    · refine ⟨traj, ty, ?_, Or.inl ⟨rfl, rfl⟩⟩
      simp only [playerStatesTypes, hmx, if_neg hgt]

end STGCN_BIN_SA

section ConfigLemmas

lemma lookupK_setKey (d : ConfigDict) (k : String) (v : PyVal) (k' : String) :
    lookupK (setKey d k v) k' = if k' = k then some v else lookupK d k' := by
  induction d with
  | nil =>
    by_cases hk' : k' = k
    · simp [setKey, lookupK, hk']
    · simp [setKey, lookupK, hk']
  | cons kv rest ih =>
    obtain ⟨a, b⟩ := kv
    by_cases hka : k = a
    · subst hka
      by_cases hk' : k' = k
      · simp [setKey, lookupK, hk']
      · simp [setKey, lookupK, hk']
    · by_cases hk'a : k' = a
      · have hk'k : ¬(k' = k) := fun h => hka (by rw [← h]; exact hk'a)
        have hak : ¬(a = k) := fun h => hka h.symm
        simp [setKey, lookupK, hka, hk'a, hk'k, hak]
      · simp [setKey, lookupK, hka, hk'a, ih]

lemma mem_keysOf_iff (d : ConfigDict) (k : String) :
    k ∈ keysOf d ↔ (lookupK d k).isSome := by
  induction d with
  | nil => simp [keysOf, lookupK]
  | cons kv rest ih =>
    obtain ⟨a, b⟩ := kv
    unfold keysOf lookupK
    by_cases hka : k = a
    · simp [hka]
    · simp only [List.map_cons, List.mem_cons, hka, false_or, if_neg hka]
      exact ih

lemma update_config_lookup (cu : ConfigDict) (hnd : (keysOf cu).Nodup)
    (d : ConfigDict) (k : String) :
    lookupK (update_config d cu) k =
      if k ∈ keysOf cu then lookupK cu k else lookupK d k := by
  induction cu generalizing d with
  | nil => simp [update_config, keysOf, lookupK]
  | cons kv rest ih =>
    obtain ⟨a, v⟩ := kv
    have hnd' : (keysOf rest).Nodup := (List.nodup_cons.mp hnd).2
    have hna : a ∉ keysOf rest := (List.nodup_cons.mp hnd).1
    show lookupK (update_config (setKey d a v) rest) k = _
    rw [ih hnd' (setKey d a v)]
    by_cases hkr : k ∈ keysOf rest
    · have hka : ¬(k = a) := fun h => hna (h ▸ hkr)
      rw [if_pos hkr, if_pos (by exact List.mem_cons_of_mem _ hkr)]
      simp [lookupK, hka]
    · rw [if_neg hkr, lookupK_setKey]
      by_cases hka : k = a
      · rw [if_pos hka, if_pos (by exact List.mem_cons.mpr (Or.inl hka))]
        simp [lookupK, hka]
      · rw [if_neg hka, if_neg (by
          intro h
          rcases List.mem_cons.mp h with h' | h'
          · exact hka h'
          · exact hkr h')]

lemma foldl_fill_noop (g : ConfigDict → String → ConfigDict) (ks : List String)
    (c : ConfigDict) (h : ∀ k ∈ ks, (lookupK c k).isSome) :
    ks.foldl (fun c k => if (lookupK c k).isSome then c else g c k) c = c := by
  induction ks with
  | nil => rfl
  | cons a ks ih =>
    rw [List.foldl_cons, if_pos (h a (List.mem_cons_self a ks))]
    exact ih fun k hk => h k (List.mem_cons_of_mem a hk)

lemma completeConfig_lookup (dflt cu : ConfigDict) (hnd : (keysOf cu).Nodup) (k : String)
    (hk : k ∈ keysOf dflt) :
    lookupK (completeConfig dflt cu) k =
      if k ∈ keysOf cu then lookupK cu k else lookupK dflt k := by
  unfold completeConfig
  rw [foldl_fill_noop]
  · exact update_config_lookup cu hnd dflt k
  · intro k' hk'
    rw [update_config_lookup cu hnd dflt k']
    by_cases hcu : k' ∈ keysOf cu
    · rw [if_pos hcu]
      exact (mem_keysOf_iff cu k').mp hcu
    · rw [if_neg hcu]
      exact (mem_keysOf_iff dflt k').mp hk'

end ConfigLemmas

section ForwardTrace

open STGCN_BIN_SA in
/-- Success trace of `STGCN_BIN_SA.forward`: on a model constructed with
`input_feature == 'physical'` and an input whose tensor shapes agree with
the configuration, `forward` returns the output dictionary, whose
`output` has shape `(batch, n_actions)`, whose `target` is the input
`actions` tensor and whose `loss` is `torch.zeros(1)`.  The opaque
externals are constrained exactly by their spec contracts: the backbone
maps its input to features `[batch, n_features, t, a]`, and
`torch.normal` / `move_player_first` preserve shapes. -/
lemma bin_forward_ok
    (tenv : TorchEnv) (cfg : Config) (it : InputTransformT)
    (sf : Tensor → Tensor → Tensor) (w : Nat → Nat → ℚ) (bias : Nat → ℚ)
    (m : Model)
    (hinit : init cfg it sf w bias = .ok m)
    (hphys : cfg.input_feature = .physical)
    (data : DataDict) (hp : HyperParams)
    (ty0 tr ac : Tensor) (batch length td : Nat) (beta : ℚ)
    (hty : data.types = some ty0)
    (htr : data.trajectories = some tr)
    (hac : data.actions = some ac)
    (htysh : ty0.shape = [batch, cfg.n_agents, td])
    (htrsh : tr.shape = [batch, length, cfg.n_agents, cfg.state_dim])
    (hacsh : ac.shape = [batch])
    (hbeta : hp.beta = some beta)
    (hest : hp.estimate_parameters.getD false = false)
    (hpid : data.playerid = none ∨ ∃ pid mx, data.playerid = some pid ∧ tmax pid = some mx)
    (hstg : ∀ inp b, ∃ t a, (sf inp b).shape = [inp.shape.getD 0 0, cfg.n_features, t, a])
    (hnorm : ∀ x y, (tenv.normal x y).shape = x.shape)
    (hmpf : ∀ x p, (tenv.move_player_first x p).shape = x.shape) :
    ∃ d, forward tenv m data hp = .ok d ∧
      d.output.shape = [batch, cfg.n_actions] ∧ d.target = ac ∧ d.loss = zerosT [1] := by
  have hm : STGCN_BIN_SA.Model.mk cfg (some it) sf ⟨cfg.n_features, cfg.n_actions, w, bias⟩ = m := by
    simp only [init, hphys] at hinit
    exact Except.ok.inj hinit
  have hmc : m.config = cfg := by rw [← hm]
  have hmit : m.input_transform = some it := by rw [← hm]
  have hmsf : m.stgcn = sf := by rw [← hm]
  have hmdec : m.decoder = ⟨cfg.n_features, cfg.n_actions, w, bias⟩ := by rw [← hm]
  have htr2sh : (trajAfterNoise tenv cfg.noise tr).shape
      = [batch, length, cfg.n_agents, cfg.state_dim] := by
    cases hn : cfg.noise with
    | none => simp only [trajAfterNoise]; exact htrsh
    | some s => simp only [trajAfterNoise]; rw [hnorm]; exact htrsh
  obtain ⟨st, tys, hpst, hcases⟩ :=
    pst_cases tenv cfg.n_agents (trajAfterNoise tenv cfg.noise tr) ty0 data.playerid hpid
  have hstsh : st.shape = [batch, length, cfg.n_agents, cfg.state_dim] := by
    rcases hcases with ⟨rfl, _⟩ | ⟨pid, _, rfl, _⟩
    · exact htr2sh
    · rw [hmpf]; exact htr2sh
  obtain ⟨td2, htyssh⟩ : ∃ td2, tys.shape = [batch, cfg.n_agents, td2] := by
    rcases hcases with ⟨_, rfl⟩ | ⟨pid, _, hst, rfl⟩
    · exact ⟨td, htysh⟩
    · refine ⟨4, ?_⟩
      rw [buildTypes_shape, hstsh]
      rfl
  have hrepLen : ([1, length, 1, 1] : List Nat).length = (unsqueezeT tys 1).shape.length := by
    rw [unsqueezeT_shape, htyssh]
    rfl
  obtain ⟨tyRep, hrep, hrepsh⟩ := repeatT_some (unsqueezeT tys 1) [1, length, 1, 1] hrepLen
  have hrepsh' : tyRep.shape = [batch, length, cfg.n_agents, td2] := by
    rw [hrepsh, unsqueezeT_shape, htyssh]
    simp
  have hcatc1 : st.shape.set 3 0 = tyRep.shape.set 3 0 := by rw [hstsh, hrepsh']; rfl
  have hcatc2 : (3 : Nat) < st.shape.length := by rw [hstsh]; exact Nat.le.refl
  obtain ⟨inputs, hcat, hcatsh⟩ := catAlong_some 3 st tyRep hcatc1 hcatc2
  have hinpsh0 : inputs.shape.getD 0 0 = batch := by rw [hcatsh, hstsh]; rfl
  obtain ⟨tdim, adim, hxsh⟩ := hstg inputs (it.apply st tys beta)
  rw [hinpsh0] at hxsh
  obtain ⟨xm, hmean, hmeansh⟩ :=
    meanDims23_some (sf inputs (it.apply st tys beta)) batch cfg.n_features tdim adim [] hxsh
  have hassert : xm.shape = [batch, (sf inputs (it.apply st tys beta)).shape.getD 1 0] := by
    rw [hmeansh, hxsh]
    rfl
  have hlast : xm.shape.getLastD 0 = cfg.n_features := by rw [hmeansh]; rfl
  have hne : xm.shape ≠ [] := by rw [hmeansh]; simp
  obtain ⟨out, happ, happsh⟩ :=
    applyLastDim_some ⟨cfg.n_features, cfg.n_actions, w, bias⟩ xm hlast hne
  have houtsh : out.shape = [batch, cfg.n_actions] := by rw [happsh, hmeansh]; rfl
  refine ⟨⟨out, ac, zerosT [1]⟩, ?_, houtsh, rfl, rfl⟩
  simp only [forward, hty, htr, hac, htrsh, hmc, hbeta, hacsh, eq_self_iff_true, and_self,
    if_true, hpst, hest, Bool.false_eq_true, if_false, binaryInput, hphys, hmit, hmsf, hmdec,
    hrep, hcat, hmean, hassert, happ]

open STGCN_RL in
/-- Success trace of `STGCN_RL.forward`: on an input whose tensor shapes
agree with the configuration (including the unconditionally read
`lengths` field), `forward` returns the output dictionary, whose `output`
has shape `(batch, n_actions)`, whose `target` is the input `actions`
tensor and whose `loss` is `torch.zeros(1)`. -/
lemma rl_forward_ok
    (cfg : Config) (sf : Tensor → Tensor) (w : Nat → Nat → ℚ) (bias : Nat → ℚ)
    (data : DataDict) (hp : HyperParams)
    (nul una ac len : Tensor) (batch length : Nat)
    (hnul : data.nullary_states = some nul)
    (huna : data.unary_states = some una)
    (hac : data.actions = some ac)
    (hlen : data.lengths = some len)
    (hunash : una.shape = [batch, length, cfg.n_agents, cfg.state_dim1 + cfg.object_name_dim])
    (hnulsh : nul.shape = [batch, length, cfg.state_dim0])
    (hstg : ∀ inp, ∃ t a, (sf inp).shape = [inp.shape.getD 0 0, cfg.n_features, t, a]) :
    ∃ d, forward (init cfg sf w bias) data hp = .ok d ∧
      d.output.shape = [batch, cfg.n_actions] ∧ d.target = ac ∧ d.loss = zerosT [1] := by
  have hne1 : (unsqueezeT nul 2).shape = [batch, length, 1, cfg.state_dim0] := by
    rw [unsqueezeT_shape, hnulsh]
    rfl
  have hcat1c1 : (unsqueezeT nul 2).shape.set 3 0 =
      (zerosT [batch, length, 1, cfg.state_dim1 + cfg.object_name_dim]).shape.set 3 0 := by
    rw [hne1]; rfl
  have hcat1c2 : (3 : Nat) < (unsqueezeT nul 2).shape.length := by rw [hne1]; exact Nat.le.refl
  obtain ⟨nullary_expand, hcat1, hcat1sh⟩ := catAlong_some 3 (unsqueezeT nul 2)
    (zerosT [batch, length, 1, cfg.state_dim1 + cfg.object_name_dim]) hcat1c1 hcat1c2
  have hnesh : nullary_expand.shape =
      [batch, length, 1, cfg.state_dim0 + (cfg.state_dim1 + cfg.object_name_dim)] := by
    rw [hcat1sh, hne1]; rfl
  have hcat2c1 : (zerosT [batch, length, cfg.n_agents, cfg.state_dim0]).shape.set 3 0 =
      una.shape.set 3 0 := by
    rw [hunash]; rfl
  have hcat2c2 : (3 : Nat) <
      (zerosT [batch, length, cfg.n_agents, cfg.state_dim0]).shape.length := Nat.le.refl
  obtain ⟨unary_expand, hcat2, hcat2sh⟩ := catAlong_some 3
    (zerosT [batch, length, cfg.n_agents, cfg.state_dim0]) una hcat2c1 hcat2c2
  have huesh : unary_expand.shape =
      [batch, length, cfg.n_agents, cfg.state_dim0 + (cfg.state_dim1 + cfg.object_name_dim)] := by
    rw [hcat2sh, hunash]; rfl
  have hcat3c1 : nullary_expand.shape.set 2 0 = unary_expand.shape.set 2 0 := by
    rw [hnesh, huesh]
    rfl
  have hcat3c2 : (2 : Nat) < nullary_expand.shape.length := by
    rw [hnesh]
    exact Nat.le_of_lt Nat.le.refl
  obtain ⟨inputs, hcat3, hcat3sh⟩ := catAlong_some 2 nullary_expand unary_expand hcat3c1 hcat3c2
  have hinpsh0 : inputs.shape.getD 0 0 = batch := by rw [hcat3sh, hnesh]; rfl
  obtain ⟨tdim, adim, hxsh⟩ := hstg inputs
  rw [hinpsh0] at hxsh
  obtain ⟨xm, hmean, hmeansh⟩ := meanDims23_some (sf inputs) batch cfg.n_features tdim adim [] hxsh
  have hlast : xm.shape.getLastD 0 = cfg.n_features := by rw [hmeansh]; rfl
  have hne : xm.shape ≠ [] := by rw [hmeansh]; simp
  obtain ⟨out, happ, happsh⟩ :=
    applyLastDim_some ⟨cfg.n_features, cfg.n_actions, w, bias⟩ xm hlast hne
  have houtsh : out.shape = [batch, cfg.n_actions] := by rw [happsh, hmeansh]; rfl
  refine ⟨⟨out, ac, zerosT [1]⟩, ?_, houtsh, rfl, rfl⟩
  simp only [forward, init, hnul, huna, hac, hlen, hunash, hnulsh, eq_self_iff_true, and_self,
    if_true, hcat1, hcat2, hcat3, hmean, hmeansh, happ]

end ForwardTrace

/-- C1: for every valid input (a trajectories/states tensor whose agent
and state dimensions match the model's configuration, an actions tensor of
shape `(batch,)`, and the other required fields), `STGCN_BIN_SA.forward`
and `STGCN_RL.forward` return a dictionary whose `output` tensor has shape
`(batch, n_actions)` with `n_actions` taken from the configuration.  The
external submodules are constrained by their spec shape contracts (the
backbone produces `[batch, n_features, t, a]` features; `torch.normal` and
`move_player_first` preserve shapes); the `STGCN_BIN_SA` model is one
constructed with the `'physical'` input feature (its `forward` consumes
the input transform). -/
theorem C1_output_shape
    (tenv : TorchEnv) (cfg : STGCN_BIN_SA.Config) (it : STGCN_BIN_SA.InputTransformT)
    (sf : Tensor → Tensor → Tensor) (w : Nat → Nat → ℚ) (bias : Nat → ℚ)
    (m : STGCN_BIN_SA.Model)
    (hinit : STGCN_BIN_SA.init cfg it sf w bias = .ok m)
    (hphys : cfg.input_feature = .physical)
    (data : DataDict) (hp : HyperParams)
    (ty0 tr ac : Tensor) (batch length td : Nat) (beta : ℚ)
    (hty : data.types = some ty0)
    (htr : data.trajectories = some tr)
    (hac : data.actions = some ac)
    (htysh : ty0.shape = [batch, cfg.n_agents, td])
    (htrsh : tr.shape = [batch, length, cfg.n_agents, cfg.state_dim])
    (hacsh : ac.shape = [batch])
    (hbeta : hp.beta = some beta)
    (hest : hp.estimate_parameters.getD false = false)
    (hpid : data.playerid = none ∨ ∃ pid mx, data.playerid = some pid ∧ tmax pid = some mx)
    (hstg : ∀ inp b, ∃ t a, (sf inp b).shape = [inp.shape.getD 0 0, cfg.n_features, t, a])
    (hnorm : ∀ x y, (tenv.normal x y).shape = x.shape)
    (hmpf : ∀ x p, (tenv.move_player_first x p).shape = x.shape)
    (cfg2 : STGCN_RL.Config) (sf2 : Tensor → Tensor) (w2 : Nat → Nat → ℚ) (bias2 : Nat → ℚ)
    (data2 : DataDict) (hp2 : HyperParams)
    (nul una ac2 len : Tensor) (batch2 length2 : Nat)
    (hnul : data2.nullary_states = some nul)
    (huna : data2.unary_states = some una)
    (hac2 : data2.actions = some ac2)
    (hlen : data2.lengths = some len)
    (hunash : una.shape = [batch2, length2, cfg2.n_agents, cfg2.state_dim1 + cfg2.object_name_dim])
    (hnulsh : nul.shape = [batch2, length2, cfg2.state_dim0])
    (hstg2 : ∀ inp, ∃ t a, (sf2 inp).shape = [inp.shape.getD 0 0, cfg2.n_features, t, a]) :
    (∃ d, STGCN_BIN_SA.forward tenv m data hp = .ok d ∧
      d.output.shape = [batch, cfg.n_actions]) ∧
    (∃ d, STGCN_RL.forward (STGCN_RL.init cfg2 sf2 w2 bias2) data2 hp2 = .ok d ∧
      d.output.shape = [batch2, cfg2.n_actions]) := by
  constructor
  · obtain ⟨d, h1, h2, _, _⟩ := bin_forward_ok tenv cfg it sf w bias m hinit hphys data hp
      ty0 tr ac batch length td beta hty htr hac htysh htrsh hacsh hbeta hest hpid hstg hnorm hmpf
    exact ⟨d, h1, h2⟩
  · obtain ⟨d, h1, h2, _, _⟩ := rl_forward_ok cfg2 sf2 w2 bias2 data2 hp2
      nul una ac2 len batch2 length2 hnul huna hac2 hlen hunash hnulsh hstg2
    exact ⟨d, h1, h2⟩

/-- Witness for C1 at concrete inputs: default configurations, batch 1,
length 1, and the stub externals. -/
theorem C1_output_shape_witness :
    (∃ d, STGCN_BIN_SA.forward stubTenv mBIN dataBIN hpBIN = .ok d ∧
      d.output.shape = [1, 9]) ∧
    (∃ d, STGCN_RL.forward mRL dataRL hpBIN = .ok d ∧ d.output.shape = [1, 2]) :=
  C1_output_shape stubTenv STGCN_BIN_SA.defaultConfig stubIT (stubStgcn2 256) zeroW zeroB
    mBIN rfl rfl dataBIN hpBIN tyBIN trBIN acT 1 1 4 1 rfl rfl rfl rfl rfl rfl rfl rfl
    (Or.inl rfl) (fun inp b => ⟨1, 1, rfl⟩) (fun x y => rfl) (fun x p => rfl)
    STGCN_RL.defaultConfig (stubStgcn1 256) zeroW zeroB dataRL hpBIN
    nulRL unaRL acT lenRL 1 1 rfl rfl rfl rfl rfl rfl (fun inp => ⟨1, 1, rfl⟩)

/-- C2: on every forward call of either model that returns the output
dictionary, the dictionary's `target` field is exactly the input `actions`
tensor, unchanged, and its `loss` field is the placeholder zero tensor
`torch.zeros(1)` (the real loss being computed externally). -/
theorem C2_target_and_loss :
    (∀ (tenv : TorchEnv) (m : STGCN_BIN_SA.Model) (data : DataDict) (hp : HyperParams)
        (a : Tensor) (d : OutputDict), data.actions = some a →
        STGCN_BIN_SA.forward tenv m data hp = .ok d →
        d.target = a ∧ d.loss = zerosT [1]) ∧
    (∀ (m : STGCN_RL.Model) (data : DataDict) (hp : HyperParams)
        (a : Tensor) (d : OutputDict), data.actions = some a →
        STGCN_RL.forward m data hp = .ok d →
        d.target = a ∧ d.loss = zerosT [1]) := by
  constructor
  · intro tenv m data hp a d ha h
    unfold STGCN_BIN_SA.forward at h
    rw [ha] at h
    repeat' split at h
    all_goals first
      | exact FwdResult.noConfusion h
      | (cases h; refine ⟨?_, rfl⟩; simp_all)
  · intro m data hp a d ha h
    unfold STGCN_RL.forward at h
    rw [ha] at h
    repeat' split at h
    all_goals first
      | exact FwdResult.noConfusion h
      | (cases h; refine ⟨?_, rfl⟩; simp_all)

/-- Witness for C2: a concrete successful forward call of each model on
which the returned `target` is the input actions tensor and the `loss` is
the zero tensor. -/
theorem C2_target_and_loss_witness :
    (∃ d, STGCN_BIN_SA.forward stubTenv mBIN dataBIN hpBIN = .ok d ∧
      d.target = acT ∧ d.loss = zerosT [1]) ∧
    (∃ d, STGCN_RL.forward mRL dataRL hpBIN = .ok d ∧
      d.target = acT ∧ d.loss = zerosT [1]) := by
  constructor
  · obtain ⟨d, h1, _, _, _⟩ := bin_forward_ok stubTenv STGCN_BIN_SA.defaultConfig stubIT
      (stubStgcn2 256) zeroW zeroB mBIN rfl rfl dataBIN hpBIN tyBIN trBIN acT 1 1 4 1
      rfl rfl rfl rfl rfl rfl rfl rfl (Or.inl rfl) (fun inp b => ⟨1, 1, rfl⟩)
      (fun x y => rfl) (fun x p => rfl)
    exact ⟨d, h1, C2_target_and_loss.1 stubTenv mBIN dataBIN hpBIN acT d rfl h1⟩
  · obtain ⟨d, h1, _, _, _⟩ := rl_forward_ok STGCN_RL.defaultConfig (stubStgcn1 256) zeroW zeroB
      dataRL hpBIN nulRL unaRL acT lenRL 1 1 rfl rfl rfl rfl rfl rfl (fun inp => ⟨1, 1, rfl⟩)
    exact ⟨d, h1, C2_target_and_loss.2 mRL dataRL hpBIN acT d rfl h1⟩

/-- C3: a configuration whose `input_feature` is neither `'physical'` nor
`None` makes `STGCN_BIN_SA.__init__` raise a bare `ValueError` (and
`forward`'s `input_feature` dispatch, `binaryInput`, raises the same
error); `set_grad` with any option other than `'all'`, `'none'`,
`'gfootball_finetune'` raises a bare `ValueError`. -/
theorem C3_invalid_config_value_error :
    (∀ (cfg : STGCN_BIN_SA.Config) (it : STGCN_BIN_SA.InputTransformT)
        (sf : Tensor → Tensor → Tensor) (w : Nat → Nat → ℚ) (bias : Nat → ℚ) (v : String),
        cfg.input_feature = .other v →
        STGCN_BIN_SA.init cfg it sf w bias = .error .valueError) ∧
    (∀ (m : STGCN_BIN_SA.Model) (states types : Tensor) (beta : ℚ) (v : String),
        m.config.input_feature = .other v →
        STGCN_BIN_SA.binaryInput m states types beta = .error .valueError) ∧
    (∀ opt : String, opt ≠ "all" → opt ≠ "none" → opt ≠ "gfootball_finetune" →
        STGCN_BIN_SA.set_grad opt = .error .valueError) := by
  refine ⟨?_, ?_, ?_⟩
  · intro cfg it sf w bias v h
    simp only [STGCN_BIN_SA.init, h]
  · intro m states types beta v h
    simp only [STGCN_BIN_SA.binaryInput, h]
  · intro opt h1 h2 h3
    simp only [STGCN_BIN_SA.set_grad, h1, h2, h3, if_false]

/-- Witness for C3 at the concrete invalid values `'bogus'` (for
`input_feature`) and `'frozen'` (for `set_grad`). -/
theorem C3_invalid_config_value_error_witness :
    STGCN_BIN_SA.init cfgOther stubIT (stubStgcn2 256) zeroW zeroB = .error .valueError ∧
    STGCN_BIN_SA.binaryInput mOther trBIN tyBIN 1 = .error .valueError ∧
    STGCN_BIN_SA.set_grad "frozen" = .error .valueError :=
  ⟨C3_invalid_config_value_error.1 cfgOther stubIT (stubStgcn2 256) zeroW zeroB "bogus" rfl,
   C3_invalid_config_value_error.2.1 mOther trBIN tyBIN 1 "bogus" rfl,
   C3_invalid_config_value_error.2.2 "frozen" (by decide) (by decide) (by decide)⟩

/-- C4: tensor shapes at odds with the configuration fail the forward
asserts.  For `STGCN_BIN_SA`: an agent count or state dimension different
from `n_agents` / `state_dim`, or actions not of shape `(batch,)`.  For
`STGCN_RL`: an agent count different from `n_agents`, nullary states not
of shape `(batch, length, state_dim[0])`, or unary states whose last
dimension is not `state_dim[1] + object_name_dim`. -/
theorem C4_shape_mismatch_assert :
    (∀ (tenv : TorchEnv) (m : STGCN_BIN_SA.Model) (data : DataDict) (hp : HyperParams)
        (ty tr ac : Tensor) (b l n s : Nat),
        data.types = some ty → data.trajectories = some tr → data.actions = some ac →
        tr.shape = [b, l, n, s] →
        ¬(n = m.config.n_agents ∧ s = m.config.state_dim ∧ ac.shape = [b]) →
        STGCN_BIN_SA.forward tenv m data hp = .error .assertError) ∧
    (∀ (m : STGCN_RL.Model) (data : DataDict) (hp : HyperParams)
        (nul una ac len : Tensor) (b l n dd : Nat),
        data.nullary_states = some nul → data.unary_states = some una →
        data.actions = some ac → data.lengths = some len →
        una.shape = [b, l, n, dd] →
        ¬(n = m.config.n_agents ∧ nul.shape = [b, l, m.config.state_dim0] ∧
          dd = m.config.state_dim1 + m.config.object_name_dim) →
        STGCN_RL.forward m data hp = .error .assertError) := by
  constructor
  · intro tenv m data hp ty tr ac b l n s hty htr hac htrsh hcond
    simp only [STGCN_BIN_SA.forward, hty, htr, hac, htrsh]
    rw [if_neg hcond]
  · intro m data hp nul una ac len b l n dd hnul huna hac hlen hunash hcond
    simp only [STGCN_RL.forward, hnul, huna, hac, hlen, hunash]
    rw [if_neg hcond]

/-- Witness for C4: a trajectories tensor with 5 agents against the
default 13, and a unary-states tensor with last dimension 200 against the
required 14 + 194 = 208. -/
theorem C4_shape_mismatch_assert_witness :
    STGCN_BIN_SA.forward stubTenv mBIN dataBINbad hpBIN = .error .assertError ∧
    STGCN_RL.forward mRL dataRLbad hpBIN = .error .assertError :=
  ⟨C4_shape_mismatch_assert.1 stubTenv mBIN dataBINbad hpBIN tyBIN trBad acT 1 1 5 3
      rfl rfl rfl rfl (by decide),
   C4_shape_mismatch_assert.2 mRL dataRLbad hpBIN nulRL unaBad acT lenRL 1 1 45 200
      rfl rfl rfl rfl rfl (by decide)⟩

/-- Counterexample to C5 as stated: an otherwise valid `STGCN_RL` input
dictionary that omits the sequence-lengths field does not succeed —
`forward` reads `data['lengths']` unconditionally and fails with a
`KeyError`. -/
theorem C5_counterexample :
    STGCN_RL.forward mRL { dataRL with lengths := none } hpBIN = .error .keyError := rfl

/-- C5 as amended: the sequence-lengths field is optional for
`STGCN_BIN_SA.forward` (which never reads it, and succeeds without it on
an otherwise valid input), but `STGCN_RL.forward` reads the `lengths`
field unconditionally, so an otherwise valid input that omits it fails
with a `KeyError` (the field's value is never used afterwards). -/
theorem C5_lengths_optional_amended :
    (∀ (tenv : TorchEnv) (m : STGCN_BIN_SA.Model) (data : DataDict) (hp : HyperParams)
        (v : Option Tensor),
        STGCN_BIN_SA.forward tenv m data hp
          = STGCN_BIN_SA.forward tenv m { data with lengths := v } hp) ∧
    (∀ (tenv : TorchEnv) (cfg : STGCN_BIN_SA.Config) (it : STGCN_BIN_SA.InputTransformT)
        (sf : Tensor → Tensor → Tensor) (w : Nat → Nat → ℚ) (bias : Nat → ℚ)
        (m : STGCN_BIN_SA.Model) (data : DataDict) (hp : HyperParams)
        (ty0 tr ac : Tensor) (batch length td : Nat) (beta : ℚ),
        STGCN_BIN_SA.init cfg it sf w bias = .ok m →
        cfg.input_feature = .physical →
        data.types = some ty0 → data.trajectories = some tr → data.actions = some ac →
        ty0.shape = [batch, cfg.n_agents, td] →
        tr.shape = [batch, length, cfg.n_agents, cfg.state_dim] →
        ac.shape = [batch] →
        hp.beta = some beta → hp.estimate_parameters.getD false = false →
        (data.playerid = none ∨ ∃ pid mx, data.playerid = some pid ∧ tmax pid = some mx) →
        (∀ inp b, ∃ t a, (sf inp b).shape = [inp.shape.getD 0 0, cfg.n_features, t, a]) →
        (∀ x y, (tenv.normal x y).shape = x.shape) →
        (∀ x p, (tenv.move_player_first x p).shape = x.shape) →
        ∃ d, STGCN_BIN_SA.forward tenv m { data with lengths := none } hp = .ok d) ∧
    (∀ (m : STGCN_RL.Model) (data : DataDict) (hp : HyperParams),
        data.nullary_states.isSome → data.unary_states.isSome → data.actions.isSome →
        data.lengths = none →
        STGCN_RL.forward m data hp = .error .keyError) := by
  refine ⟨?_, ?_, ?_⟩
  · intro tenv m data hp v
    cases data
    rfl
  · intro tenv cfg it sf w bias m data hp ty0 tr ac batch length td beta
      hinit hphys hty htr hac htysh htrsh hacsh hbeta hest hpid hstg hnorm hmpf
    obtain ⟨d, h1, _, _, _⟩ := bin_forward_ok tenv cfg it sf w bias m hinit hphys
      { data with lengths := none } hp ty0 tr ac batch length td beta
      hty htr hac htysh htrsh hacsh hbeta hest hpid hstg hnorm hmpf
    exact ⟨d, h1⟩
  · intro m data hp h1 h2 h3 hlen
    obtain ⟨nul, hnul⟩ := Option.isSome_iff_exists.mp h1
    obtain ⟨una, huna⟩ := Option.isSome_iff_exists.mp h2
    obtain ⟨ac, hac⟩ := Option.isSome_iff_exists.mp h3
    simp only [STGCN_RL.forward, hnul, huna, hac, hlen]

/-- Witness for the amended C5 at concrete inputs. -/
theorem C5_lengths_optional_amended_witness :
    (STGCN_BIN_SA.forward stubTenv mBIN dataBIN hpBIN
      = STGCN_BIN_SA.forward stubTenv mBIN { dataBIN with lengths := some lenRL } hpBIN) ∧
    (∃ d, STGCN_BIN_SA.forward stubTenv mBIN { dataBIN with lengths := none } hpBIN = .ok d) ∧
    STGCN_RL.forward mRL { dataRL with lengths := none } hpBIN = .error .keyError :=
  ⟨C5_lengths_optional_amended.1 stubTenv mBIN dataBIN hpBIN (some lenRL),
   C5_lengths_optional_amended.2.1 stubTenv STGCN_BIN_SA.defaultConfig stubIT (stubStgcn2 256)
     zeroW zeroB mBIN dataBIN hpBIN tyBIN trBIN acT 1 1 4 1 rfl rfl rfl rfl rfl rfl rfl rfl rfl rfl
     (Or.inl rfl) (fun inp b => ⟨1, 1, rfl⟩) (fun x y => rfl) (fun x p => rfl),
   C5_lengths_optional_amended.2.2 mRL { dataRL with lengths := none } hpBIN rfl rfl rfl rfl⟩

/-- C6: for every `ConfigUpdate` (a key-value mapping without duplicate
keys) passed to `complete_config` of either model with the
`default_config` argument left `None`, the returned configuration contains
every key of that model's `default_config`; keys mentioned in the update
take the updated value, and default keys not supplied by the update keep
their default value. -/
theorem C6_complete_config (cu : ConfigDict) (hnd : ConfigUpdate.wf cu) (k : String) :
    (k ∈ keysOf STGCN_BIN_SA.default_config →
      (lookupK (STGCN_BIN_SA.complete_config cu) k).isSome ∧
      lookupK (STGCN_BIN_SA.complete_config cu) k =
        (if k ∈ keysOf cu then lookupK cu k else lookupK STGCN_BIN_SA.default_config k)) ∧
    (k ∈ keysOf STGCN_RL.default_config →
      (lookupK (STGCN_RL.complete_config cu) k).isSome ∧
      lookupK (STGCN_RL.complete_config cu) k =
        (if k ∈ keysOf cu then lookupK cu k else lookupK STGCN_RL.default_config k)) := by
  constructor
  · intro hk
    unfold STGCN_BIN_SA.complete_config
    have heq := completeConfig_lookup STGCN_BIN_SA.default_config cu hnd k hk
    refine ⟨?_, heq⟩
    rw [heq]
    by_cases hcu : k ∈ keysOf cu
    · rw [if_pos hcu]
      exact (mem_keysOf_iff cu k).mp hcu
    · rw [if_neg hcu]
      exact (mem_keysOf_iff _ k).mp hk
  · intro hk
    unfold STGCN_RL.complete_config
    have heq := completeConfig_lookup STGCN_RL.default_config cu hnd k hk
    refine ⟨?_, heq⟩
    rw [heq]
    by_cases hcu : k ∈ keysOf cu
    · rw [if_pos hcu]
      exact (mem_keysOf_iff cu k).mp hcu
    · rw [if_neg hcu]
      exact (mem_keysOf_iff _ k).mp hk

/-- Witness for C6: the update `{'n_agents': 7}` overrides the default in
both models' completed configurations. -/
theorem C6_complete_config_witness :
    lookupK (STGCN_BIN_SA.complete_config cuW) "n_agents" = some (PyVal.n 7) ∧
    lookupK (STGCN_RL.complete_config cuW) "n_agents" = some (PyVal.n 7) := by
  have h := C6_complete_config cuW (show (keysOf cuW).Nodup by decide) "n_agents"
  constructor
  · rw [(h.1 (by decide)).2, if_pos (show "n_agents" ∈ keysOf cuW by decide)]
    rfl
  · rw [(h.2 (by decide)).2, if_pos (show "n_agents" ∈ keysOf cuW by decide)]
    rfl

/-- C7: `STGCN_BIN_SA.forward` injects feature noise into the
trajectories (replacing them with a `torch.normal` sample whose standard
deviation is `noise` on the first two state coordinates) exactly when the
configuration's `noise` value is not `None`; when it is `None` the
trajectories enter the rest of the computation unchanged.
(`trajAfterNoise` is the noise-injection step of `forward`.) -/
theorem C7_noise_injection (tenv : TorchEnv) (m : STGCN_BIN_SA.Model) (traj : Tensor) :
    (m.config.noise = none →
      STGCN_BIN_SA.trajAfterNoise tenv m.config.noise traj = traj) ∧
    (∀ sigma : ℚ, m.config.noise = some sigma →
      STGCN_BIN_SA.trajAfterNoise tenv m.config.noise traj
        = tenv.normal traj (STGCN_BIN_SA.noiseStdT sigma traj)) := by
  constructor
  · intro h
    rw [h]
    rfl
  · intro s h
    rw [h]
    rfl

/-- Witness for C7: the default configuration (noise `None`) leaves the
trajectories unchanged; a configuration with noise 1 samples around them. -/
theorem C7_noise_injection_witness :
    STGCN_BIN_SA.trajAfterNoise stubTenv mBIN.config.noise trBIN = trBIN ∧
    STGCN_BIN_SA.trajAfterNoise stubTenv mNoise.config.noise trBIN
      = stubTenv.normal trBIN (STGCN_BIN_SA.noiseStdT 1 trBIN) :=
  ⟨(C7_noise_injection stubTenv mBIN trBIN).1 rfl,
   (C7_noise_injection stubTenv mNoise trBIN).2 1 rfl⟩

/-- C8: `STGCN_BIN_SA.forward` reorders agents (through
`move_player_first`, placing the designated player first) exactly when the
input contains a `playerid` field whose maximum is greater than -0.5; when
`playerid` is absent or its maximum is at most -0.5, the trajectories are
used in their given agent order.  (`playerStatesTypes` is the reordering
step of `forward`.) -/
theorem C8_player_reorder (tenv : TorchEnv) (n : Nat) (traj ty pid : Tensor) :
    (STGCN_BIN_SA.playerStatesTypes tenv n traj ty none = .ok (traj, ty)) ∧
    (∀ mx, tmax pid = some mx → mx > -(1/2 : ℚ) →
      STGCN_BIN_SA.playerStatesTypes tenv n traj ty (some pid)
        = .ok (tenv.move_player_first traj pid,
            STGCN_BIN_SA.buildTypes ((tenv.move_player_first traj pid).shape.getD 0 0)
              ((tenv.move_player_first traj pid).shape.getD 2 0) n)) ∧
    (∀ mx, tmax pid = some mx → mx ≤ -(1/2 : ℚ) →
      STGCN_BIN_SA.playerStatesTypes tenv n traj ty (some pid) = .ok (traj, ty)) := by
  refine ⟨rfl, ?_, ?_⟩
  · intro mx hmx hgt
    simp only [STGCN_BIN_SA.playerStatesTypes, hmx, if_pos hgt]
  · intro mx hmx hle
    simp only [STGCN_BIN_SA.playerStatesTypes, hmx, if_neg (not_lt.mpr hle)]

/-- Witness for C8: a present `playerid` with maximum 3 (`> -0.5`)
triggers the reordering; an absent one, or one with maximum -1, does not. -/
theorem C8_player_reorder_witness :
    STGCN_BIN_SA.playerStatesTypes stubTenv 13 trBIN tyBIN none = .ok (trBIN, tyBIN) ∧
    STGCN_BIN_SA.playerStatesTypes stubTenv 13 trBIN tyBIN (some pidPos)
      = .ok (stubTenv.move_player_first trBIN pidPos,
          STGCN_BIN_SA.buildTypes ((stubTenv.move_player_first trBIN pidPos).shape.getD 0 0)
            ((stubTenv.move_player_first trBIN pidPos).shape.getD 2 0) 13) ∧
    STGCN_BIN_SA.playerStatesTypes stubTenv 13 trBIN tyBIN (some pidNeg)
      = .ok (trBIN, tyBIN) :=
  ⟨(C8_player_reorder stubTenv 13 trBIN tyBIN pidPos).1,
   (C8_player_reorder stubTenv 13 trBIN tyBIN pidPos).2.1 3 (by decide) (by norm_num),
   (C8_player_reorder stubTenv 13 trBIN tyBIN pidNeg).2.2 (-1) (by decide) (by norm_num)⟩

/-- C9: whenever the player-first reordering happens, the caller-supplied
types tensor is discarded — the second component of the reordering step's
result is the constructed tensor `buildTypes`, independent of the input
types — and that tensor one-hot encodes, over 4 classes, a class
determined only by the post-reordering agent position: agent 0 gets class
0, agent 1 gets class 1, agents 2 through `n_agents / 2` get class 2, and
all remaining agents get class 3. -/
theorem C9_onehot_types (tenv : TorchEnv) (n : Nat) (traj ty pid : Tensor) (mx : ℚ)
    (hmx : tmax pid = some mx) (hgt : mx > -(1/2 : ℚ)) :
    (STGCN_BIN_SA.playerStatesTypes tenv n traj ty (some pid)
      = .ok (tenv.move_player_first traj pid,
          STGCN_BIN_SA.buildTypes ((tenv.move_player_first traj pid).shape.getD 0 0)
            ((tenv.move_player_first traj pid).shape.getD 2 0) n)) ∧
    (∀ d0 d2 b k t : Nat, k < n →
      (STGCN_BIN_SA.buildTypes d0 d2 n).data [b, k, t]
        = if t = (if k = 0 then 0 else if k = 1 then 1 else if k ≤ n / 2 then 2 else 3)
          then 1 else 0) := by
  constructor
  · simp only [STGCN_BIN_SA.playerStatesTypes, hmx, if_pos hgt]
  · intro d0 d2 b k t hk
    rw [STGCN_BIN_SA.buildTypes_data d0 d2 n b k t hk, STGCN_BIN_SA.typeClassOf_eq]

/-- Witness for C9 with `n_agents = 4`: the replacement happens, and
at position `k = 2` (with `n_agents // 2 = 2`) the constructed tensor is
1 at class 2 and 0 at class 3. -/
theorem C9_onehot_types_witness :
    (STGCN_BIN_SA.playerStatesTypes stubTenv 4 trBIN tyBIN (some pidPos)
      = .ok (stubTenv.move_player_first trBIN pidPos,
          STGCN_BIN_SA.buildTypes ((stubTenv.move_player_first trBIN pidPos).shape.getD 0 0)
            ((stubTenv.move_player_first trBIN pidPos).shape.getD 2 0) 4)) ∧
    (STGCN_BIN_SA.buildTypes 1 4 4).data [0, 2, 2] = 1 ∧
    (STGCN_BIN_SA.buildTypes 1 4 4).data [0, 2, 3] = 0 := by
  have h := C9_onehot_types stubTenv 4 trBIN tyBIN pidPos 3 (by decide) (by norm_num)
  refine ⟨h.1, ?_, ?_⟩
  · rw [h.2 1 4 0 2 2 (by decide)]
    norm_num
  · rw [h.2 1 4 0 2 3 (by decide)]
    norm_num

/-- C10: for every input and every hyperparameter dictionary containing a
truthy `estimate_parameters` entry, `STGCN_BIN_SA.forward` (on a model
that has the input transform) returns Python `None` instead of the output
dictionary, after invoking the input transform's parameter estimation on
the (possibly reordered) states — the recorded states of
`retNoneAfterEstimate` are exactly the first component produced by the
reordering step. -/
theorem C10_estimate_returns_none
    (tenv : TorchEnv) (m : STGCN_BIN_SA.Model) (data : DataDict) (hp : HyperParams)
    (ty0 tr ac : Tensor) (batch length : Nat) (beta : ℚ) (it : STGCN_BIN_SA.InputTransformT)
    (hit : m.input_transform = some it)
    (hty : data.types = some ty0)
    (htr : data.trajectories = some tr)
    (hac : data.actions = some ac)
    (htrsh : tr.shape = [batch, length, m.config.n_agents, m.config.state_dim])
    (hacsh : ac.shape = [batch])
    (hbeta : hp.beta = some beta)
    (hest : hp.estimate_parameters = some true)
    (hpid : data.playerid = none ∨ ∃ pid mx, data.playerid = some pid ∧ tmax pid = some mx) :
    ∃ st tys, STGCN_BIN_SA.playerStatesTypes tenv m.config.n_agents
        (STGCN_BIN_SA.trajAfterNoise tenv m.config.noise tr) ty0 data.playerid
        = .ok (st, tys) ∧
      STGCN_BIN_SA.forward tenv m data hp = .retNoneAfterEstimate st := by
  obtain ⟨st, tys, hpst, _⟩ := STGCN_BIN_SA.pst_cases tenv m.config.n_agents
    (STGCN_BIN_SA.trajAfterNoise tenv m.config.noise tr) ty0 data.playerid hpid
  refine ⟨st, tys, hpst, ?_⟩
  simp only [STGCN_BIN_SA.forward, hty, htr, hac, htrsh, hacsh, eq_self_iff_true, and_self,
    if_true, hbeta, hpst, hest, Option.getD_some, hit]

/-- Witness for C10: with `hp = {'beta': 1, 'estimate_parameters': True}`
the concrete forward call returns `None`, with the states recorded by the
estimation step. -/
theorem C10_estimate_returns_none_witness :
    ∃ st tys, STGCN_BIN_SA.playerStatesTypes stubTenv mBIN.config.n_agents
        (STGCN_BIN_SA.trajAfterNoise stubTenv mBIN.config.noise trBIN) tyBIN dataBIN.playerid
        = .ok (st, tys) ∧
      STGCN_BIN_SA.forward stubTenv mBIN dataBIN hpEst = .retNoneAfterEstimate st :=
  C10_estimate_returns_none stubTenv mBIN dataBIN hpEst tyBIN trBIN acT 1 1 1 stubIT
    rfl rfl rfl rfl rfl rfl rfl rfl (Or.inl rfl)
